import Mathlib

/-!
Verification of the Rating Migration & Stability Engine specification of the
meliora repository.  The engine implementation (Panel Normalizer, Transition
Matrix Builder, Stability metrics, Resampling Engine) is not shipped under
`src/`; only its documentation, README and the examples notebook are.  The
engine is therefore modelled faithfully from the specification text (each such
definition carries a doc comment starting `Modelled from the spec:`).  The
standardized-MSE decision rule of the examples notebook is embedded from the
notebook source itself.

Weights and probabilities are modelled as rationals, so exact arithmetic
replaces floating point; the 1e-9 spec tolerance statements are proved with
the exact quantity shown to be within the tolerance.
-/

namespace Meliora

/-- A rating grade identifier (spec §3: grade identifiers such as "AAA"…"CCC"). -/
abbrev Grade := String

/-- Modelled from the spec: §3/§4.1 `RatingScale` — an ordered sequence of
non-absorbing grade identifiers plus a set of absorbing-state identifiers
(default, withdrawn). -/
structure RatingScale where
  order : List Grade
  absorbing : List Grade
deriving DecidableEq

/-- All matrix indices: ordered grades followed by absorbing states
(spec §3: the matrix includes absorbing states as rows/columns). -/
def RatingScale.allGrades (s : RatingScale) : List Grade :=
  s.order ++ s.absorbing

/-- Modelled from the spec: §4.1 `is_absorbing(grade)`. -/
def RatingScale.isAbsorbing (s : RatingScale) (g : Grade) : Bool :=
  s.absorbing.contains g

/-- A single period observation inside a history: grade and exposure weight
(spec §3 `ObservationRecord` fields carried into the aligned history). -/
structure Obs where
  grade : Grade
  weight : ℚ
deriving DecidableEq

/-- Modelled from the spec: §3 `ObservationRecord` — (entity_id, period_index,
grade, weight). -/
structure ObservationRecord where
  entity : Nat
  period : Nat
  grade : Grade
  weight : ℚ
deriving DecidableEq

/-- Modelled from the spec: §3 `ObligorHistory` — period-indexed sequence of
grades for one entity, `none` marking a gap period. Index `t` is period `t`. -/
abbrev ObligorHistory := List (Option Obs)

/-- Modelled from the spec: §4.2 duplicate-resolution policy
{keep-latest, fail}. -/
inductive DuplicatePolicy where
  | keepLatest
  | failOnDuplicate
deriving DecidableEq

/-- Modelled from the spec: §7 error taxonomy entry raised by the Panel
Normalizer under the `fail` duplicate policy. -/
inductive NormError where
  | duplicateObservation
deriving DecidableEq

/-- Modelled from the spec: §4.2 duplicate resolution, keep-latest branch —
the latest-inserted record for period `t` wins (deterministic tie-break). -/
def resolved (records : List ObservationRecord) (t : Nat) : Option Obs :=
  (records.filter (fun r => r.period == t)).getLast?.map (fun r => ⟨r.grade, r.weight⟩)

/-- Largest period index mentioned by the raw records (0 when none). -/
def maxPeriod (records : List ObservationRecord) : Nat :=
  (records.map (fun r => r.period)).foldr max 0

/-- Whether two raw records share a period (triggers `DuplicateObservation`
under the `fail` policy, spec §4.2). -/
def hasDuplicate (records : List ObservationRecord) : Bool :=
  !((records.map (fun r => r.period)).Nodup : Prop)

/-- Modelled from the spec: §4.2 absorbing-state truncation — the earliest
period whose resolved observation carries an absorbing grade. -/
def firstAbsorbing (s : RatingScale) (records : List ObservationRecord) : Option Nat :=
  (List.range (maxPeriod records + 1)).find? (fun t =>
    match resolved records t with
    | some o => s.isAbsorbing o.grade
    | none => false)

/-- Last period kept by the normalizer: the earliest absorbing period when one
exists, otherwise the last observed period. -/
def truncationPoint (s : RatingScale) (records : List ObservationRecord) : Nat :=
  match firstAbsorbing s records with
  | some t => t
  | none => maxPeriod records

/-- Modelled from the spec: §4.2 Panel Normalizer for one entity — resolves
duplicates per policy, marks gaps, and discards every record after the first
absorbing period (violating input is not an error, it is deterministically
discarded). -/
def normalizeEntity (s : RatingScale) (pol : DuplicatePolicy)
    (records : List ObservationRecord) : Except NormError ObligorHistory :=
  if pol = DuplicatePolicy.failOnDuplicate ∧ hasDuplicate records = true then
    .error .duplicateObservation
  else
    .ok ((List.range (truncationPoint s records + 1)).map (resolved records))

/-- Modelled from the spec: §4.3 period-pair selector — pair (t, t+1)
qualifies when the selector accepts `t` (all consecutive pairs, or
specifically period k→k+1). -/
abbrev PairSelector := Nat → Bool

/-- Modelled from the spec: §4.3 pair enumeration — walking a history from
period `t`, emit every consecutive non-gap pair accepted by the selector. -/
def pairsFrom (sel : PairSelector) : Nat → ObligorHistory → List (Obs × Obs)
  | _, [] => []
  | _, [_] => []
  | t, a :: b :: rest =>
    (match a, b, sel t with
     | some o1, some o2, true => [(o1, o2)]
     | _, _, _ => []) ++ pairsFrom sel (t + 1) (b :: rest)

/-- Qualifying transition pairs of one obligor history (spec §4.3). -/
def historyPairs (sel : PairSelector) (h : ObligorHistory) : List (Obs × Obs) :=
  pairsFrom sel 0 h

/-- A square numeric matrix indexed by grades (count or probability form of
spec §3 `TransitionMatrix`). -/
abbrev CountMatrix := Grade → Grade → ℚ

/-- Weighted count contributed by a list of transition pairs to cell (i, j):
each qualifying pair adds the weight of its from-observation (spec §4.3
aggregation weight scheme, entity weight defaulting to 1). -/
def pairCount (ps : List (Obs × Obs)) : CountMatrix :=
  fun i j =>
    ((ps.filter (fun p => p.1.grade == i && p.2.grade == j)).map
      (fun p => p.1.weight)).sum

/-- Modelled from the spec: §4.3 aggregation — for every obligor history,
enumerate qualifying consecutive pairs and increment the weighted count at
(from-grade, to-grade). -/
def countMatrix (sel : PairSelector) (histories : List ObligorHistory) : CountMatrix :=
  fun i j => (histories.map (fun h => pairCount (historyPairs sel h) i j)).sum

/-- Row sum of a count matrix over the grades of the scale: the total outgoing
observation weight of the row (the normalizing denominator of spec §4.3). -/
def rowSum (s : RatingScale) (c : CountMatrix) (g : Grade) : ℚ :=
  (s.allGrades.map (c g)).sum

/-- Modelled from the spec: §4.3 row normalization — absorbing-state rows are
fixed to the identity transition by convention (not estimated from data);
rows with zero total weight are flagged undefined (`none`) rather than
divided; every other row is divided by its row sum. -/
def probRow (s : RatingScale) (c : CountMatrix) (g : Grade) : Option (Grade → ℚ) :=
  if s.isAbsorbing g then
    some (fun j => if j = g then 1 else 0)
  else if rowSum s c g = 0 then
    none
  else
    some (fun j => c g j / rowSum s c g)

/-- Modelled from the spec: §4.3/§7 failure taxonomy entry of the Transition
Matrix Builder. -/
inductive BuilderError where
  | emptyCohort
deriving DecidableEq

/-- The output of the builder: the aggregated count matrix together with the
derived probability form (rows `none` when undefined). -/
structure BuiltMatrices where
  counts : CountMatrix
  probs : Grade → Option (Grade → ℚ)

/-- Total number of qualifying transition pairs across the whole panel. -/
def totalQualifyingPairs (sel : PairSelector) (histories : List ObligorHistory) : Nat :=
  (histories.map (fun h => (historyPairs sel h).length)).sum

/-- Modelled from the spec: §4.3 Transition Matrix Builder — raises
`EmptyCohort` when no obligor has any qualifying transition pair, otherwise
returns the count matrix and its row-normalized probability form. -/
def buildMatrix (s : RatingScale) (sel : PairSelector)
    (histories : List ObligorHistory) : Except BuilderError BuiltMatrices :=
  if totalQualifyingPairs sel histories = 0 then
    .error .emptyCohort
  else
    .ok ⟨countMatrix sel histories, probRow s (countMatrix sel histories)⟩

/-- Row-sum tolerance of the spec (§3, §4.3, §8): probability rows sum to
1 ± 1e-9. -/
def tol : ℚ := 1 / 1000000000

/-- Modelled from the spec: §4.4 floor epsilon — cells present in one matrix
but zero in the other are floored at a configurable epsilon to avoid a
division/log singularity, never silently skipped. -/
def floorEps (eps x : ℚ) : ℚ := max x eps

/-- Modelled from the spec: §4.4 one summand of the matrix-form stability
index: (p − q)·ln(p/q) after flooring both cells. The natural logarithm is
kept abstract as a parameter `lg`; every property proved below holds for any
choice of `lg`. -/
def psiTerm (lg : ℚ → ℚ) (eps p q : ℚ) : ℚ :=
  (floorEps eps p - floorEps eps q) * lg (floorEps eps p / floorEps eps q)

/-- Modelled from the spec: §4.4 row contribution — Σ (p_i − q_i)·ln(p_i/q_i)
over matched non-absorbing columns between a base row and a current row. -/
def rowStabilityIndex (lg : ℚ → ℚ) (eps : ℚ) (s : RatingScale)
    (prow qrow : Grade → ℚ) : ℚ :=
  (s.order.map (fun j => psiTerm lg eps (prow j) (qrow j))).sum

/-- Modelled from the spec: §4.4 matrix-form stability index — the row
contributions aggregated (sum over non-absorbing rows) into a single index. -/
def matrixStabilityIndex (lg : ℚ → ℚ) (eps : ℚ) (s : RatingScale)
    (base current : CountMatrix) : ℚ :=
  (s.order.map (fun g => rowStabilityIndex lg eps s (base g) (current g))).sum

/-- Modelled from the spec: §4.5/§7 failure taxonomy entry of the Resampling
Engine. -/
inductive ResampleError where
  | insufficientObligors
deriving DecidableEq

/-- Modelled from the spec: §4.5/§6 Resampling Engine configuration — draw
count B, configurable minimum number of obligors, explicit random seed. -/
structure ResampleConfig where
  B : Nat
  minObligors : Nat
  seed : Nat
deriving DecidableEq

/-- A deterministic linear-congruential step standing in for the seeded
pseudo-random generator of spec §4.5 (any deterministic generator satisfies
the determinism contract of the spec). -/
def lcgNext (st : Nat) : Nat :=
  (6364136223846793005 * st + 1442695040888963407) % (2 ^ 64)

/-- The first `k` states of the generator after seed `st`. -/
def lcgStream (st : Nat) : Nat → List Nat
  | 0 => []
  | k + 1 => lcgNext st :: lcgStream (lcgNext st) k

/-- Sub-seed for draw number `b`, derived from the explicit seed (spec §5:
each draw is a pure function of (panel, configuration, seed-derived
sub-seed)). -/
def mixSeed (seed b : Nat) : Nat := lcgNext (seed + b)

/-- Modelled from the spec: §3 `ResampleDraw` — one resampled history set of
the same size as the original, drawn with replacement at the entity level,
the full history of each sampled entity kept intact. -/
def resampleOnce (panel : List ObligorHistory) (seed : Nat) : List ObligorHistory :=
  (lcgStream seed panel.length).map (fun st => panel.getD (st % panel.length) [])

/-- Modelled from the spec: §4.5 — the `B` independent entity-level bootstrap
draws, draw `b` using the sub-seed derived from the explicit seed. -/
def bootstrapDraws (cfg : ResampleConfig) (panel : List ObligorHistory) :
    List (List ObligorHistory) :=
  (List.range cfg.B).map (fun b => resampleOnce panel (mixSeed cfg.seed b))

/-- Modelled from the spec: §4.5 Resampling Engine — checks the configured
minimum number of entities before drawing, then returns the empirical
distribution of the statistic over the B draws. -/
def bootstrapDistribution (cfg : ResampleConfig) (panel : List ObligorHistory)
    (stat : List ObligorHistory → ℚ) : Except ResampleError (List ℚ) :=
  if panel.length < cfg.minObligors then
    .error .insufficientObligors
  else
    .ok ((bootstrapDraws cfg panel).map stat)

/-- The draws the engine actually performs on a given input: none at all when
the minimum-obligors check fails (spec §4.5: the check happens before
drawing). -/
def drawsAttempted (cfg : ResampleConfig) (panel : List ObligorHistory) :
    List (List ObligorHistory) :=
  if panel.length < cfg.minObligors then [] else bootstrapDraws cfg panel

/-- Insert into a ≤-sorted list of rationals. -/
def insertSorted (x : ℚ) : List ℚ → List ℚ
  | [] => [x]
  | y :: ys => if x ≤ y then x :: y :: ys else y :: insertSorted x ys

/-- Insertion sort of a list of rationals (ascending). -/
def sortAsc (l : List ℚ) : List ℚ := l.foldr insertSorted []

/-- Clamped index of the `p`-th percentile in a sorted sample of size `n`. -/
def percentileIndex (n : Nat) (p : ℚ) : Nat :=
  min (Int.toNat ⌊p * n⌋) (n - 1)

/-- Modelled from the spec: §4.5 two-sided percentile confidence interval at
coverage `level`, read off the sorted empirical distribution. -/
def confidenceInterval (level : ℚ) (dist : List ℚ) : ℚ × ℚ :=
  let sorted := sortAsc dist
  (sorted.getD (percentileIndex sorted.length ((1 - level) / 2)) 0,
   sorted.getD (percentileIndex sorted.length ((1 + level) / 2)) 0)

/-- From src/examples/examples.ipynb, standardized-MSE calibration cell:
`outcome = z_score > norm.ppf(1 - 0.05/2)`. The standard-normal quantile
norm.ppf(1 - 0.05/2) is abstracted as the parameter `q`. -/
def mseOutcome (z q : ℚ) : Bool := q < z

/-- From src/examples/examples.ipynb, commented R reference implementation
`Spiegelhalter_z`: rejection when `abs(z_score) > qnorm(1 - alpha/2)`. -/
def spiegelhalterRReject (z q : ℚ) : Bool := q < |z|

/-! ### Helper lemmas -/

lemma sum_map_div {α : Type} (l : List α) (f : α → ℚ) (d : ℚ) :
    (l.map (fun x => f x / d)).sum = (l.map f).sum / d := by
  induction l with
  | nil => simp
  | cons a t ih => simp [ih, add_div]

lemma probs_of_ok (s : RatingScale) (sel : PairSelector)
    (histories : List ObligorHistory) (M : BuiltMatrices)
    (hok : buildMatrix s sel histories = .ok M) :
    M.probs = probRow s (countMatrix sel histories) := by
  unfold buildMatrix at hok
  split at hok
  · exact absurd hok (by simp)
  · cases hok
    rfl

lemma pairsFrom_eq_nil (sel : PairSelector) (h : ObligorHistory)
    (hle : (h.filter (fun o => o.isSome)).length ≤ 1) :
    ∀ t, pairsFrom sel t h = [] := by
  induction h with
  | nil => intro t; rfl
  | cons a tail ih =>
    cases tail with
    | nil => intro t; rfl
    | cons b rest =>
      intro t
      rcases a with _ | oa <;> rcases b with _ | ob
      · have htail : ((none :: rest : ObligorHistory).filter
            (fun o => o.isSome)).length ≤ 1 := by
          simpa [List.filter_cons] using hle
        exact ih htail (t + 1)
      · have htail : ((some ob :: rest : ObligorHistory).filter
            (fun o => o.isSome)).length ≤ 1 := by
          simpa [List.filter_cons] using hle
        exact ih htail (t + 1)
      · have hr : ((none :: rest : ObligorHistory).filter (fun o => o.isSome))
            = rest.filter (fun o => o.isSome) := by
          simp [List.filter_cons]
        have htail : ((none :: rest : ObligorHistory).filter
            (fun o => o.isSome)).length ≤ 1 := by
          rw [hr]
          simp [List.filter_cons] at hle
          have hnil : rest.filter (fun o => o.isSome) = [] := by
            rw [List.filter_eq_nil_iff]
            intro a ha
            simp [hle a ha]
          simp [hnil]
        exact ih htail (t + 1)
      · exfalso
        simp [List.filter_cons] at hle

/-! ### Claim theorems -/

/-- Claim C1: for every well-formed input panel, in the probability-form matrix
produced by the Transition Matrix Builder, every non-absorbing row whose
total outgoing observation weight is nonzero has entries summing to 1 within
the 1e-9 tolerance (here the sum is exactly 1, so the deviation is 0). -/
theorem prob_rows_sum_to_one (s : RatingScale) (sel : PairSelector)
    (histories : List ObligorHistory) (M : BuiltMatrices) (g : Grade)
    (p : Grade → ℚ)
    (hok : buildMatrix s sel histories = .ok M)
    (habs : s.isAbsorbing g = false)
    (hnz : rowSum s (countMatrix sel histories) g ≠ 0)
    (hp : M.probs g = some p) :
    |(s.allGrades.map p).sum - 1| ≤ tol := by
  rw [probs_of_ok s sel histories M hok] at hp
  unfold probRow at hp
  rw [habs] at hp
  simp only [Bool.false_eq_true, if_false, if_neg hnz, Option.some.injEq] at hp
  subst hp
  rw [sum_map_div]
  have hsum : (s.allGrades.map (countMatrix sel histories g)).sum
      = rowSum s (countMatrix sel histories) g := rfl
  rw [hsum, div_self hnz]
  simp only [sub_self, abs_zero]
  norm_num [tol]

/-- Claim C2: every row of the built probability matrix that corresponds to an
absorbing state is the identity row (1 on the diagonal, 0 elsewhere), and —
since the same identity row results from any count matrix whatsoever —
absorbing rows are never estimated from the data. -/
theorem absorbing_rows_identity (s : RatingScale) (sel : PairSelector)
    (histories : List ObligorHistory) (M : BuiltMatrices) (g : Grade)
    (habs : s.isAbsorbing g = true)
    (hok : buildMatrix s sel histories = .ok M) :
    M.probs g = some (fun j => if j = g then 1 else 0) ∧
    ∀ c : CountMatrix, probRow s c g = some (fun j => if j = g then 1 else 0) := by
  have hall : ∀ c : CountMatrix, probRow s c g
      = some (fun j => if j = g then 1 else 0) := by
    intro c
    unfold probRow
    rw [habs]
    simp
  exact ⟨by rw [probs_of_ok s sel histories M hok, hall], hall⟩

/-- Claim C3: the builder raises `EmptyCohort` exactly when no obligor history
contains any qualifying transition pair; in particular it does so whenever
every history has at most one non-gap observation (every obligor observed in
a single period, so no consecutive pair exists). -/
theorem emptyCohort_iff (s : RatingScale) (sel : PairSelector)
    (histories : List ObligorHistory) :
    (buildMatrix s sel histories = .error .emptyCohort ↔
      ∀ h ∈ histories, historyPairs sel h = []) ∧
    ((∀ h ∈ histories, (h.filter (fun o => o.isSome)).length ≤ 1) →
      buildMatrix s sel histories = .error .emptyCohort) := by
  have htot : totalQualifyingPairs sel histories = 0 ↔
      ∀ h ∈ histories, historyPairs sel h = [] := by
    unfold totalQualifyingPairs
    rw [List.sum_eq_zero_iff]
    constructor
    · intro hall h hh
      exact List.length_eq_zero.mp (hall _ (List.mem_map_of_mem _ hh))
    · intro hall x hx
      obtain ⟨h, hh, rfl⟩ := List.mem_map.mp hx
      simp [hall h hh]
  have hiff : buildMatrix s sel histories = .error .emptyCohort ↔
      ∀ h ∈ histories, historyPairs sel h = [] := by
    rw [← htot]
    unfold buildMatrix
    split
    · next h0 => simp [h0]
    · next h0 => simp [h0]
  refine ⟨hiff, fun hle => hiff.mpr fun h hh => ?_⟩
  exact pairsFrom_eq_nil sel h (hle h hh) 0

/-- Claim C8: during row normalization, a non-absorbing row with zero total
outgoing weight is flagged undefined (`none`) instead of being divided by its
row sum, so no 0/0 division is ever formed, for any input panel and indeed
for any count matrix. -/
theorem zero_rows_undefined (s : RatingScale) (sel : PairSelector)
    (histories : List ObligorHistory) (M : BuiltMatrices) (g : Grade)
    (habs : s.isAbsorbing g = false)
    (hz : rowSum s (countMatrix sel histories) g = 0)
    (hok : buildMatrix s sel histories = .ok M) :
    M.probs g = none ∧
    ∀ c : CountMatrix, rowSum s c g = 0 → probRow s c g = none := by
  have hall : ∀ c : CountMatrix, rowSum s c g = 0 → probRow s c g = none := by
    intro c hc
    unfold probRow
    rw [habs, hc]
    simp
  exact ⟨by rw [probs_of_ok s sel histories M hok]; exact hall _ hz, hall⟩

/-- Claim C5: the Transition Matrix Builder is deterministic — its count matrix and
its whole output (probability matrix included) depend only on the multiset of
input histories and the configuration, so re-running it on identical input
(or on the same histories aggregated in any other order) yields bit-for-bit
identical matrices. -/
theorem builder_deterministic (s : RatingScale) (sel : PairSelector)
    (hs1 hs2 : List ObligorHistory) (hperm : hs1.Perm hs2) :
    countMatrix sel hs1 = countMatrix sel hs2 ∧
    buildMatrix s sel hs1 = buildMatrix s sel hs2 := by
  have hc : countMatrix sel hs1 = countMatrix sel hs2 := by
    funext i j
    exact List.Perm.sum_eq (hperm.map _)
  have ht : totalQualifyingPairs sel hs1 = totalQualifyingPairs sel hs2 :=
    List.Perm.sum_eq (hperm.map _)
  refine ⟨hc, ?_⟩
  unfold buildMatrix
  rw [ht, hc]

/-- Claim C9: for an entity whose resolved history first reaches an absorbing state
at period `t`, the Panel Normalizer (keep-latest policy) raises no error, and
the produced history covers exactly periods 0..t — every record with a later
period is deterministically discarded. -/
theorem absorbing_truncation (s : RatingScale)
    (records : List ObservationRecord) (t : Nat)
    (habs : firstAbsorbing s records = some t) :
    (normalizeEntity s .keepLatest records).isOk = true ∧
    normalizeEntity s .keepLatest records =
      .ok ((List.range (t + 1)).map (resolved records)) ∧
    ∀ h, normalizeEntity s .keepLatest records = .ok h → h.length = t + 1 := by
  have hcut : truncationPoint s records = t := by
    unfold truncationPoint
    rw [habs]
  have hok : normalizeEntity s .keepLatest records =
      .ok ((List.range (t + 1)).map (resolved records)) := by
    unfold normalizeEntity
    rw [if_neg (by simp), hcut]
  refine ⟨by rw [hok]; rfl, hok, fun h hh => ?_⟩
  rw [hok] at hh
  cases hh
  simp

/-- Claim C4: the Resampling Engine raises `InsufficientObligors` whenever the
panel has fewer entities than the configured minimum, and on such a panel it
performs no bootstrap draw at all. -/
theorem insufficient_obligors (cfg : ResampleConfig)
    (panel : List ObligorHistory) (stat : List ObligorHistory → ℚ)
    (hlt : panel.length < cfg.minObligors) :
    bootstrapDistribution cfg panel stat = .error .insufficientObligors ∧
    drawsAttempted cfg panel = [] := by
  unfold bootstrapDistribution drawsAttempted
  rw [if_pos hlt, if_pos hlt]
  exact ⟨rfl, rfl⟩

/-- Claim C6: two runs of the Resampling Engine with the same explicit seed on the
same panel and configuration produce the identical empirical distribution of
the statistic, and hence identical percentile confidence intervals. -/
theorem resampler_deterministic (cfg1 cfg2 : ResampleConfig)
    (panel1 panel2 : List ObligorHistory) (stat : List ObligorHistory → ℚ)
    (level : ℚ) (hcfg : cfg1 = cfg2) (hpanel : panel1 = panel2) :
    bootstrapDistribution cfg1 panel1 stat
      = bootstrapDistribution cfg2 panel2 stat ∧
    (bootstrapDistribution cfg1 panel1 stat).map (confidenceInterval level)
      = (bootstrapDistribution cfg2 panel2 stat).map (confidenceInterval level) := by
  subst hcfg
  subst hpanel
  exact ⟨rfl, rfl⟩

/-- Claim C7: the matrix-form stability index of any matrix against itself is
exactly 0, for every floor epsilon and every choice of the logarithm
function: each summand is (x − x)·lg(x/x) = 0. -/
theorem stability_index_self (lg : ℚ → ℚ) (eps : ℚ) (s : RatingScale)
    (M : CountMatrix) :
    matrixStabilityIndex lg eps s M M = 0 := by
  unfold matrixStabilityIndex
  apply List.sum_eq_zero
  intro x hx
  obtain ⟨g, _, rfl⟩ := List.mem_map.mp hx
  unfold rowStabilityIndex
  apply List.sum_eq_zero
  intro y hy
  obtain ⟨j, _, rfl⟩ := List.mem_map.mp hy
  unfold psiTerm
  rw [sub_self, zero_mul]

/-- Claim C10: in the standardized-MSE cell of the notebook the rejection decision is
true exactly when the z-score strictly exceeds the upper 97.5% normal
quantile `q`; the comparison is one-sided, so any negative z-score — however
large in magnitude — never rejects, even where the commented R reference
two-sided |z| rule does. -/
theorem mse_outcome_one_sided (z q : ℚ) (hq : 0 < q) :
    (mseOutcome z q = true ↔ q < z) ∧
    (z < 0 → mseOutcome z q = false) ∧
    (q < -z → mseOutcome z q = false ∧ spiegelhalterRReject z q = true) := by
  unfold mseOutcome spiegelhalterRReject
  refine ⟨by simp, fun hz => ?_, fun hlt => ⟨?_, ?_⟩⟩
  · simp only [decide_eq_false_iff_not, not_lt]
    linarith
  · simp only [decide_eq_false_iff_not, not_lt]
    linarith
  · simp only [decide_eq_true_eq]
    rw [abs_of_neg (by linarith : z < 0)]
    linarith

/-! ### Concrete inputs for the witness theorems -/

/-- A small scale: ordered grades A, B and absorbing default state D. -/
def wScale : RatingScale := ⟨["A", "B"], ["D"]⟩

/-- Selector accepting all consecutive period pairs. -/
def wSel : PairSelector := fun _ => true

/-- History A → B → D. -/
def wHist : ObligorHistory := [some ⟨"A", 1⟩, some ⟨"B", 1⟩, some ⟨"D", 1⟩]

/-- History A → B (grade B then has no outgoing transition). -/
def wHistAB : ObligorHistory := [some ⟨"A", 1⟩, some ⟨"B", 1⟩]

/-- Single-period history: grade A observed once. -/
def wHistA : ObligorHistory := [some ⟨"A", 1⟩]

/-- Count matrix aggregated from the single history A → B → D. -/
def wCounts : CountMatrix := countMatrix wSel [wHist]

/-- Builder output on the panel [wHist]. -/
def wM : BuiltMatrices := ⟨wCounts, probRow wScale wCounts⟩

/-- Count matrix aggregated from the single history A → B. -/
def wCountsAB : CountMatrix := countMatrix wSel [wHistAB]

/-- Builder output on the panel [wHistAB]. -/
def wMAB : BuiltMatrices := ⟨wCountsAB, probRow wScale wCountsAB⟩

/-- Raw records of one entity that defaults at period 1 and then — in
violation of the scale — carries post-default records at periods 2 and 3. -/
def wRecords : List ObservationRecord :=
  [⟨1, 0, "A", 1⟩, ⟨1, 1, "D", 1⟩, ⟨1, 2, "B", 1⟩, ⟨1, 3, "A", 1⟩]

/-- A 10-entity panel (below the configured minimum of 30). -/
def wPanel10 : List ObligorHistory := List.replicate 10 wHistA

/-- A 2-entity panel used for the determinism witness. -/
def wPanel2 : List ObligorHistory := [wHistA, wHist]

/-- Resampling configuration: B = 2 draws, minimum 1 obligor, seed 7. -/
def wCfg : ResampleConfig := ⟨2, 1, 7⟩

/-- A 3-grade scale with no absorbing states, for the stability witness. -/
def wScale3 : RatingScale := ⟨["A", "B", "C"], []⟩

/-- A fixed 3×3 diagonally dominant probability matrix. -/
def wMat3 : CountMatrix := fun i j => if i = j then (8 : ℚ) / 10 else 1 / 10

/-! ### Witness theorems -/

theorem prob_rows_sum_to_one_witness :
    |(wScale.allGrades.map
        (fun j => wCounts "A" j / rowSum wScale wCounts "A")).sum - 1| ≤ tol := by
  have hnz : rowSum wScale wCounts "A" ≠ 0 := by
    simp [rowSum, RatingScale.allGrades, wScale, wCounts, countMatrix,
      pairCount, historyPairs, pairsFrom, wHist, wSel, List.filter_cons]
  have hp : wM.probs "A"
      = some (fun j => wCounts "A" j / rowSum wScale wCounts "A") := by
    show probRow wScale wCounts "A" = _
    unfold probRow
    rw [if_neg (by decide), if_neg hnz]
  exact prob_rows_sum_to_one wScale wSel [wHist] wM "A"
    (fun j => wCounts "A" j / rowSum wScale wCounts "A") rfl rfl hnz hp

theorem absorbing_rows_identity_witness :
    wM.probs "D" = some (fun j => if j = "D" then 1 else 0) ∧
    ∀ c : CountMatrix,
      probRow wScale c "D" = some (fun j => if j = "D" then 1 else 0) :=
  absorbing_rows_identity wScale wSel [wHist] wM "D" rfl rfl

theorem emptyCohort_iff_witness :
    buildMatrix wScale wSel [[some ⟨"A", 1⟩], [some ⟨"B", 2⟩]]
      = .error .emptyCohort :=
  (emptyCohort_iff wScale wSel [[some ⟨"A", 1⟩], [some ⟨"B", 2⟩]]).2 (by decide)

theorem builder_deterministic_witness :
    countMatrix wSel [wHistA, wHist] = countMatrix wSel [wHist, wHistA] ∧
    buildMatrix wScale wSel [wHistA, wHist]
      = buildMatrix wScale wSel [wHist, wHistA] :=
  builder_deterministic wScale wSel [wHistA, wHist] [wHist, wHistA]
    (List.Perm.swap wHist wHistA [])

theorem absorbing_truncation_witness :
    (normalizeEntity wScale .keepLatest wRecords).isOk = true ∧
    normalizeEntity wScale .keepLatest wRecords =
      .ok ((List.range (1 + 1)).map (resolved wRecords)) ∧
    ∀ h, normalizeEntity wScale .keepLatest wRecords = .ok h →
      h.length = 1 + 1 :=
  absorbing_truncation wScale wRecords 1 (by decide)

theorem insufficient_obligors_witness :
    bootstrapDistribution ⟨500, 30, 42⟩ wPanel10 (fun _ => 0)
      = .error .insufficientObligors ∧
    drawsAttempted ⟨500, 30, 42⟩ wPanel10 = [] :=
  insufficient_obligors ⟨500, 30, 42⟩ wPanel10 (fun _ => 0) (by decide)

theorem resampler_deterministic_witness :
    bootstrapDistribution wCfg wPanel2 (fun l => (l.length : ℚ))
      = bootstrapDistribution wCfg wPanel2 (fun l => (l.length : ℚ)) ∧
    (bootstrapDistribution wCfg wPanel2 (fun l => (l.length : ℚ))).map
        (confidenceInterval (9 / 10))
      = (bootstrapDistribution wCfg wPanel2 (fun l => (l.length : ℚ))).map
        (confidenceInterval (9 / 10)) :=
  resampler_deterministic wCfg wCfg wPanel2 wPanel2
    (fun l => (l.length : ℚ)) (9 / 10) rfl rfl

theorem stability_index_self_witness :
    matrixStabilityIndex (fun x => x) (1 / 1000) wScale3 wMat3 wMat3 = 0 :=
  stability_index_self (fun x => x) (1 / 1000) wScale3 wMat3

theorem mse_outcome_one_sided_witness :
    (mseOutcome (-100) 2 = true ↔ (2 : ℚ) < -100) ∧
    ((-100 : ℚ) < 0 → mseOutcome (-100) 2 = false) ∧
    ((2 : ℚ) < -(-100) →
      mseOutcome (-100) 2 = false ∧ spiegelhalterRReject (-100) 2 = true) :=
  mse_outcome_one_sided (-100) 2 (by norm_num)

theorem zero_rows_undefined_witness :
    wMAB.probs "B" = none ∧
    ∀ c : CountMatrix, rowSum wScale c "B" = 0 → probRow wScale c "B" = none := by
  have hz : rowSum wScale wCountsAB "B" = 0 := by
    simp [rowSum, RatingScale.allGrades, wScale, wCountsAB, countMatrix,
      pairCount, historyPairs, pairsFrom, wHistAB, wSel, List.filter_cons]
  exact zero_rows_undefined wScale wSel [wHistAB] wMAB "B" rfl hz rfl

end Meliora
